import Mathlib

namespace Minijinja

/-- Number of representable usize values (64-bit platform). -/
def USIZE : Nat := 2 ^ 64

/-- Sentinel loop index before the first iteration, the all-ones usize. -/
def SENTINEL : Nat := USIZE - 1

/-- Number of filter and test cache slots per Instructions (spec section 6.1). -/
def MAX_LOCALS : Nat := 50

/-- Cost of a single include against the recursion limit. -/
def INCLUDE_RECURSION_COST : Nat := 10

/-- Auto-escape modes consumed by the VM. -/
inductive AutoEscape where
  | none
  | html
  | json
deriving DecidableEq, Repr

/-- Error kinds the VM raises (spec section 7). -/
inductive ErrorKind where
  | invalidOperation
  | templateNotFound
  | badInclude
  | cannotUnpack
  | unknownFilter
  | unknownTest
  | recursionLimit
  | undefinedError
deriving DecidableEq, Repr

/-- Modelled from the spec: the opaque dynamic value model (spec section 3).
Only the shapes the verified claims exercise are represented: strings,
booleans, integers, sequences, undefined and none. -/
inductive Value where
  | vstr (s : String)
  | vbool (b : Bool)
  | vint (n : Int)
  | vlist (xs : List Value)
  | undefined
  | vnone

/-- Modelled from the spec: string projection of the opaque value model
(spec section 3, used by the source as value.as_str()). -/
def Value.as_str : Value → Option String
  | Value.vstr s => some s
  | _ => Option.none

/-- Modelled from the spec: equality of the opaque value model restricted to
the comparison the source performs against the boolean true
(value == Value from true).  In the value model a value equals the boolean
true exactly when it is the boolean true. -/
def Value.eqTrue : Value → Bool
  | Value.vbool true => true
  | _ => false

/-- Modelled from the spec: iteration over the opaque value model
(spec section 3); sequence values iterate over their items, other values
modelled here are not objects with iterators. -/
def Value.try_iter : Value → Option (List Value)
  | Value.vlist xs => some xs
  | _ => Option.none

/-- Embedding of Vm::derive_auto_escape (src/minijinja/src/vm/mod.rs lines
905 to 925).  The jsonFeature flag models the cfg gate on the json arm: with
the feature disabled the Some "json" case is not an arm and falls through to
the final catch-all. -/
def derive_auto_escape (jsonFeature : Bool) (value : Value) (initial_auto_escape : AutoEscape) :
    Except ErrorKind AutoEscape :=
  match value.as_str, value.eqTrue with
  | some "html", _ => Except.ok AutoEscape.html
  | some "json", _ =>
      if jsonFeature then Except.ok AutoEscape.json
      else Except.error ErrorKind.invalidOperation
  | some "none", _ => Except.ok AutoEscape.none
  | Option.none, false => Except.ok AutoEscape.none
  | Option.none, true =>
      Except.ok (if initial_auto_escape = AutoEscape.none then AutoEscape.html
                 else initial_auto_escape)
  | _, _ => Except.error ErrorKind.invalidOperation

/-- Modelled from the spec: the operand stack (spec section 4.1), missing
from src.  The stack is a list whose head is the top entry; push conses,
pop takes the head. -/
def push_items (items : List Value) (stack : List Value) : List Value :=
  items.foldl (fun st it => it :: st) stack

/-- Modelled from the spec: Stack.reverse_top n reverses the top n entries
in place (spec section 4.1); with the head as top this reverses the first
n entries of the list. -/
def reverse_top (n : Nat) (stack : List Value) : List Value :=
  (stack.take n).reverse ++ stack.drop n

/-- Modelled from the spec: the fallible conversion TryFrom of Value for
usize used by the source as stack.pop().try_into() (value model out of
scope); it succeeds exactly on non-negative integers that fit a usize. -/
def tryIntoUsize : Value → Option Nat
  | Value.vint n => if 0 ≤ n ∧ n < (USIZE : Int) then some n.toNat else Option.none
  | _ => Option.none

/-- Outcome of a VM step that may either produce a value, raise a template
error, or abort the process with a Rust panic. -/
inductive Outcome (α : Type) where
  | ok (a : α)
  | err (e : ErrorKind)
  | crash
deriving DecidableEq

/-- Embedding of the body of Instruction::BuildList once the count is known
(src/minijinja/src/vm/mod.rs lines 385 to 393): pop count values into a
vector, reverse it, push the resulting sequence value.  The stack head is
the top, so the popped values are the first count entries. -/
def build_list (count : Nat) (stack : List Value) : List Value :=
  Value.vlist ((stack.take count).reverse) :: stack.drop count

/-- Embedding of Instruction::BuildList with an absent count operand
(src/minijinja/src/vm/mod.rs line 386): the count is popped from the stack
and converted with try_into().unwrap(), which panics when the conversion
fails.  The top of the stack is passed separately because stack.pop()
requires a non-empty stack. -/
def build_list_pop_count (top : Value) (rest : List Value) : Outcome (List Value) :=
  match tryIntoUsize top with
  | some n => Outcome.ok (build_list n rest)
  | Option.none => Outcome.crash

/-- Embedding of Vm::unpack_list (src/minijinja/src/vm/mod.rs lines 972 to
994): pop the top value, obtain its iterator (CannotUnpack when the value is
not iterable), push every item, then reverse the top n entries when n equals
the expected count, else fail with CannotUnpack. -/
def unpack_list (top : Value) (rest : List Value) (count : Nat) :
    Except ErrorKind (List Value) :=
  match Value.try_iter top with
  | Option.none => Except.error ErrorKind.cannotUnpack
  | some items =>
      let st := push_items items rest
      if items.length = count then Except.ok (reverse_top items.length st)
      else Except.error ErrorKind.cannotUnpack

/-- The shared Loop record (src/minijinja/src/vm/loop_object.rs via push_loop,
src/minijinja/src/vm/mod.rs lines 957 to 964): the atomic index is a usize
stored here reduced modulo 2 to the 64, the optional length comes from the
iterator size hint, depth from the enclosing recursive loop. -/
structure LoopObject where
  idx : Nat
  len : Option Nat
  depth : Nat

/-- The loop part of a frame relevant to Iterate and PushDidNotIterate:
the bound iterator (modelled as the list of remaining items) and the shared
Loop record.  The recursion-jump fields of the source LoopState do not
participate in the verified claims and are omitted. -/
structure LoopState where
  iterator : List Value
  object : LoopObject

/-- Embedding of the loop construction in Vm::push_loop
(src/minijinja/src/vm/mod.rs lines 927 to 970) for an iterator over a
sequence of items: the index starts at the all-ones sentinel, the length is
the exact size hint of a sequence iterator.  The frame and flag plumbing is
not needed by the index claims. -/
def push_loop_fresh (items : List Value) (depth : Nat) : LoopState :=
  { iterator := items
    object := { idx := SENTINEL, len := some items.length, depth := depth } }

/-- Embedding of one execution of Instruction::Iterate
(src/minijinja/src/vm/mod.rs lines 455 to 480): first the index is
incremented (fetch_add 1 with usize wraparound), then the iterator is
advanced; on exhaustion the VM jumps to the exit target and no item is
produced, otherwise the next item is pushed. -/
def iterateStep (l : LoopState) : LoopState × Option Value :=
  let idx2 := (l.object.idx + 1) % USIZE
  match l.iterator with
  | [] => ({ l with object := { l.object with idx := idx2 } }, Option.none)
  | x :: rest => ({ iterator := rest, object := { l.object with idx := idx2 } }, some x)

/-- Iterated application of iterateStep: the state after k executions of the
Iterate instruction on the same loop. -/
def iterSteps : Nat → LoopState → LoopState
  | 0, l => l
  | k + 1, l => iterSteps k (iterateStep l).1

/-- Embedding of Instruction::PushDidNotIterate
(src/minijinja/src/vm/mod.rs lines 481 to 484): push the boolean that the
loop index currently reads zero. -/
def pushDidNotIterate (l : LoopState) : Value :=
  Value.vbool (l.object.idx == 0)

/-- Result of the filter and test cache helper: a resolved callable (model:
a numeric id) together with the cache after the call, a failed lookup, or a
process abort from an out-of-bounds slice write. -/
inductive CacheResult where
  | hit (v : Nat) (cache : List (Option Nat))
  | miss
  | crash
deriving DecidableEq, Repr

/-- Embedding of get_or_lookup_local (src/minijinja/src/vm/mod.rs lines 58
to 72).  The callables of type T are modelled as numeric ids and the FnOnce
lookup as its result.  local_id is a u8; the value 255 is the bang-zero
never-cache marker.  vec.get on an index outside the slice returns nothing,
so the subsequent memoizing slice write vec[local_id] = Some val panics;
that abort is the crash outcome. -/
def get_or_lookup_local (vec : List (Option Nat)) (local_id : Nat) (f : Option Nat) :
    CacheResult :=
  if local_id = 255 then
    match f with
    | some v => CacheResult.hit v vec
    | Option.none => CacheResult.miss
  else
    match vec.get? local_id with
    | some (some rv) => CacheResult.hit rv vec
    | _ =>
        match f with
        | Option.none => CacheResult.miss
        | some val =>
            if local_id < vec.length then CacheResult.hit val (vec.set local_id (some val))
            else CacheResult.crash

/-- A compiled template as exposed by the environment (spec section 6.2):
its name, initial auto-escape mode, and identifiers standing for its
instructions and block table. -/
structure Template where
  name : String
  initialAutoEscape : AutoEscape
  instructionsId : Nat
  blocks : List (String × Nat)
deriving DecidableEq, Repr

/-- Modelled from the spec: the environment template registry consumed by
the VM (spec section 6.2), get_template resolves a name to a compiled
template or reports that none exists. -/
structure Env where
  templates : List (String × Template)
deriving DecidableEq, Repr

/-- Template lookup in the environment registry. -/
def Env.get_template (e : Env) (n : String) : Option Template :=
  e.templates.lookup n

/-- Embedding of the candidate computation of Vm::perform_include
(src/minijinja/src/vm/mod.rs lines 707 to 713): when the popped value is an
object with an iterator the candidates are its items, otherwise the value
itself is the single candidate. -/
def includeCandidates (v : Value) : List Value :=
  match Value.try_iter v with
  | some xs => xs
  | Option.none => [v]

/-- Decides that no candidate name resolves to a template: every candidate
that is a string fails the environment lookup. -/
def allUnresolved (env : Env) (cands : List Value) : Bool :=
  cands.all (fun c =>
    match c.as_str with
    | some s => (env.get_template s).isNone
    | Option.none => true)

/-- Embedding of the candidate loop of Vm::perform_include
(src/minijinja/src/vm/mod.rs lines 715 to 786): each candidate must be a
string (else InvalidOperation); the first that resolves is rendered in place
(the rendered template is returned); an unresolved candidate is recorded in
the tried list; after the loop TemplateNotFound is raised exactly when some
template was tried and ignore_missing is not set. -/
def includeLoop (env : Env) (ignore_missing : Bool) :
    List Value → List Value → Except ErrorKind (Option Template)
  | [], tried =>
      if ¬tried.isEmpty ∧ ¬ignore_missing then Except.error ErrorKind.templateNotFound
      else Except.ok Option.none
  | c :: rest, tried =>
      match c.as_str with
      | Option.none => Except.error ErrorKind.invalidOperation
      | some n =>
          match env.get_template n with
          | some t => Except.ok (some t)
          | Option.none => includeLoop env ignore_missing rest (tried ++ [c])

/-- Embedding of Vm::perform_include (src/minijinja/src/vm/mod.rs lines 699
to 787) reduced to its resolution behaviour: the result is the template that
was rendered in place, none when nothing was rendered (and hence nothing was
written to the output). -/
def perform_include (env : Env) (v : Value) (ignore_missing : Bool) :
    Except ErrorKind (Option Template) :=
  includeLoop env ignore_missing (includeCandidates v) []

/-- The part of the evaluation state that LoadBlocks reads and writes: the
set of template names active on the extends chain and the per-name block
stacks (instruction ids, child definitions first). -/
structure LBState where
  loadedTemplates : List String
  blocks : List (String × List Nat)
deriving DecidableEq, Repr

/-- Modelled from the spec: BlockStack.append_instructions appends a new
parent beneath the existing stack so child definitions remain on top
(spec sections 3 and 4.8); entry creation mirrors the or_default access. -/
def append_block : List (String × List Nat) → String → Nat → List (String × List Nat)
  | [], bn, i => [(bn, [i])]
  | (n, st) :: rest, bn, i =>
      if n = bn then (n, st ++ [i]) :: rest
      else (n, st) :: append_block rest bn i

/-- Folding the parent blocks into the block table, one append_instructions
per parent block (src/minijinja/src/vm/mod.rs lines 870 to 876). -/
def merge_blocks (blocks : List (String × List Nat)) (newBlocks : List (String × Nat)) :
    List (String × List Nat) :=
  newBlocks.foldl (fun acc p => append_block acc p.1 p.2) blocks

/-- Embedding of Vm::load_blocks (src/minijinja/src/vm/mod.rs lines 846 to
878): the popped value must be a string; a name already contained in
loaded_templates is an inheritance cycle and raises InvalidOperation; else
the template is resolved, the name of its instructions is recorded in
loaded_templates, its blocks are appended beneath the block table, and its
instructions (their id) are returned as the new parent instructions. -/
def load_blocks (env : Env) (v : Value) (st : LBState) :
    Except ErrorKind (Nat × LBState) :=
  match v.as_str with
  | Option.none => Except.error ErrorKind.invalidOperation
  | some name =>
      if name ∈ st.loadedTemplates then Except.error ErrorKind.invalidOperation
      else
        match env.get_template name with
        | Option.none => Except.error ErrorKind.templateNotFound
        | some t =>
            Except.ok (t.instructionsId,
              { loadedTemplates := t.name :: st.loadedTemplates
                blocks := merge_blocks st.blocks t.blocks })

/-- The per-evaluation state fields that Include saves and restores
(spec section 3 State; src/minijinja/src/vm/mod.rs lines 735 to 759):
auto-escape mode, current instructions and block table (ids), the
loaded-template set, the active closure (id), and the context depth. -/
structure VmState where
  autoEscape : AutoEscape
  instructionsId : Nat
  blocks : List (String × Nat)
  loadedTemplates : List String
  closure : Option Nat
  depth : Nat
deriving DecidableEq, Repr

attribute [ext] VmState

/-- Embedding of the render-in-place section of Vm::perform_include for a
template that resolved (src/minijinja/src/vm/mod.rs lines 735 to 767).  The
nested evaluation eval_state is abstracted as a state transformer evalf;
incr_depth fails with the recursion-limit error when the inflated depth
would exceed the limit, in which case the source returns early; otherwise
the closure is taken for the nested evaluation and reset afterwards, the
depth deflated, and every replaced field restored before the nested result
(wrapped as BadInclude on error) is propagated. -/
def include_render (limit : Nat) (evalf : VmState → Except ErrorKind Unit × VmState)
    (tmpl : Template) (st : VmState) : Except ErrorKind Unit × VmState :=
  let old_escape := st.autoEscape
  let old_instructions := st.instructionsId
  let old_blocks := st.blocks
  let st1 : VmState :=
    { st with
        autoEscape := tmpl.initialAutoEscape
        instructionsId := tmpl.instructionsId
        blocks := tmpl.blocks }
  let old_loaded := st1.loadedTemplates
  if st1.depth + INCLUDE_RECURSION_COST > limit then
    (Except.error ErrorKind.recursionLimit, st1)
  else
    let st2 : VmState := { st1 with depth := st1.depth + INCLUDE_RECURSION_COST }
    let old_closure := st2.closure
    let st3 : VmState := { st2 with closure := Option.none }
    let res := evalf st3
    let st4 : VmState := { res.2 with closure := old_closure }
    let st5 : VmState := { st4 with depth := st4.depth - INCLUDE_RECURSION_COST }
    let st6 : VmState :=
      { st5 with
          loadedTemplates := old_loaded
          autoEscape := old_escape
          instructionsId := old_instructions
          blocks := old_blocks }
    let rv2 : Except ErrorKind Unit :=
      match res.1 with
      | Except.ok _ => Except.ok ()
      | Except.error _ => Except.error ErrorKind.badInclude
    (rv2, st6)

/-- The mutable data of the dispatch loop of Vm::eval_impl
(src/minijinja/src/vm/mod.rs lines 178 to 241) needed by the end-of-
instructions behaviour: the current instructions (an id standing for the
borrowed Instructions), the program counter, the stashed parent
instructions from LoadBlocks, the two local caches, the capture nesting
depth of the output together with the log of escape modes passed to
end_capture (most recent first), the written output, and the operand
stack. -/
structure EvalLoopState where
  instructionsId : Nat
  pc : Nat
  parent : Option Nat
  loadedFilters : List (Option Nat)
  loadedTests : List (Option Nat)
  captureDepth : Nat
  endedWith : List AutoEscape
  output : String
  stack : List Value

attribute [ext] EvalLoopState

/-- A fragment of the instruction set sufficient to drive the dispatch
model: literal emission, constant loading and an unconditional jump
(spec section 4.4). -/
inductive Instr where
  | emitRaw (s : String)
  | loadConst (v : Value)
  | jump (t : Nat)

/-- Execution of one fetched instruction of the modelled fragment; unless
the opcode sets the program counter, it advances by one
(src/minijinja/src/vm/mod.rs lines 299 to 693). -/
def exec_instr (i : Instr) (s : EvalLoopState) : EvalLoopState :=
  match i with
  | Instr.emitRaw t => { s with output := s.output ++ t, pc := s.pc + 1 }
  | Instr.loadConst v => { s with stack := v :: s.stack, pc := s.pc + 1 }
  | Instr.jump t => { s with pc := t }

/-- Result of one turn of the dispatch loop: either the loop continues with
an updated state or evaluation finishes with the result of
stack.try_pop(). -/
inductive DispatchResult where
  | cont (s : EvalLoopState)
  | done (rv : Option Value)

/-- Embedding of one turn of the dispatch loop of Vm::eval_impl
(src/minijinja/src/vm/mod.rs lines 216 to 241 and 693): fetch the
instruction at the program counter and execute it; when the counter is past
the end of the current instructions and parent instructions were stashed by
LoadBlocks, switch to them, end the pending discard capture with
AutoEscape::None, reset the counter to zero and clear both local caches;
without stashed parent instructions the loop breaks and returns
stack.try_pop(). -/
def dispatch_step (prog : List Instr) (s : EvalLoopState) : DispatchResult :=
  match prog.get? s.pc with
  | some i => DispatchResult.cont (exec_instr i s)
  | Option.none =>
      match s.parent with
      | some p =>
          DispatchResult.cont
            { s with
                instructionsId := p
                parent := Option.none
                endedWith := AutoEscape.none :: s.endedWith
                captureDepth := s.captureDepth - 1
                pc := 0
                loadedFilters := List.replicate MAX_LOCALS Option.none
                loadedTests := List.replicate MAX_LOCALS Option.none }
      | Option.none => DispatchResult.done s.stack.head?

lemma push_items_eq (items rest : List Value) :
    push_items items rest = items.reverse ++ rest := by
  induction items generalizing rest with
  | nil => simp [push_items]
  | cons x xs ih =>
      show push_items xs (x :: rest) = (x :: xs).reverse ++ rest
      rw [ih]
      simp

lemma reverse_top_rev (items rest : List Value) :
    reverse_top items.length (items.reverse ++ rest) = items ++ rest := by
  unfold reverse_top
  rw [show items.length = items.reverse.length by simp]
  rw [List.take_left, List.drop_left]
  simp

lemma unpack_list_vlist (xs rest : List Value) (count : Nat) :
    unpack_list (Value.vlist xs) rest count =
      if xs.length = count then Except.ok (xs ++ rest)
      else Except.error ErrorKind.cannotUnpack := by
  show (if xs.length = count then Except.ok (reverse_top xs.length (push_items xs rest))
        else Except.error ErrorKind.cannotUnpack) = _
  rw [push_items_eq, reverse_top_rev]

lemma iterateStep_idx (l : LoopState) :
    (iterateStep l).1.object.idx = (l.object.idx + 1) % USIZE := by
  unfold iterateStep
  cases l.iterator <;> rfl

lemma iterateStep_iterator (l : LoopState) :
    (iterateStep l).1.iterator = l.iterator.tail := by
  unfold iterateStep
  cases l.iterator <;> rfl

lemma iterSteps_idx (k : Nat) (l : LoopState) (h : l.object.idx < USIZE) :
    (iterSteps k l).object.idx = (l.object.idx + k) % USIZE := by
  induction k generalizing l with
  | zero => simpa [iterSteps] using (Nat.mod_eq_of_lt h).symm
  | succ k ih =>
      show (iterSteps k (iterateStep l).1).object.idx = _
      rw [ih (iterateStep l).1 (by rw [iterateStep_idx]; exact Nat.mod_lt _ (by simp [USIZE]))]
      rw [iterateStep_idx, Nat.mod_add_mod]
      congr 1
      omega

lemma iterSteps_iterator (k : Nat) (l : LoopState) :
    (iterSteps k l).iterator = l.iterator.drop k := by
  induction k generalizing l with
  | zero => simp [iterSteps]
  | succ k ih =>
      show (iterSteps k (iterateStep l).1).iterator = _
      rw [ih, iterateStep_iterator, ← List.drop_one, List.drop_drop]
      congr 1
      omega

lemma one_le_USIZE : (1 : Nat) ≤ USIZE := by norm_num [USIZE]

lemma sentinel_lt : SENTINEL < USIZE := by
  have h1 : SENTINEL = USIZE - 1 := rfl
  have h2 := one_le_USIZE
  omega

lemma sentinel_add_mod (k : Nat) (h1 : 1 ≤ k) (h2 : k ≤ USIZE) :
    (SENTINEL + k) % USIZE = k - 1 := by
  have h3 : SENTINEL = USIZE - 1 := rfl
  have h4 := one_le_USIZE
  have h5 : SENTINEL + k = USIZE + (k - 1) := by omega
  rw [h5, Nat.add_mod_left, Nat.mod_eq_of_lt (by omega)]

lemma fresh_iterSteps_idx (xs : List Value) (d k : Nat) (h1 : 1 ≤ k) (h2 : k ≤ USIZE) :
    (iterSteps k (push_loop_fresh xs d)).object.idx = k - 1 := by
  rw [iterSteps_idx k _ sentinel_lt]
  exact sentinel_add_mod k h1 h2

lemma includeLoop_tnf_iff (env : Env) (ig : Bool) :
    ∀ cands tried, (∀ c ∈ cands, (Value.as_str c).isSome = true) →
      (includeLoop env ig cands tried = Except.error ErrorKind.templateNotFound ↔
        ig = false ∧ allUnresolved env cands = true ∧ ¬(cands = [] ∧ tried = [])) := by
  intro cands
  induction cands with
  | nil =>
      intro tried _
      unfold includeLoop
      by_cases hi : ig
      · subst hi
        simp [allUnresolved]
      · rcases tried with _ | ⟨t, ts⟩ <;> simp_all [allUnresolved]
  | cons c rest ih =>
      intro tried hstr
      have hc : (Value.as_str c).isSome = true := hstr c (by simp)
      rcases hs : Value.as_str c with _ | n
      · rw [hs] at hc; simp at hc
      · show (match Value.as_str c with
              | Option.none => Except.error ErrorKind.invalidOperation
              | some n =>
                  match env.get_template n with
                  | some t => Except.ok (some t)
                  | Option.none => includeLoop env ig rest (tried ++ [c])) = _ ↔ _
        rw [hs]
        dsimp only
        rcases ht : env.get_template n with _ | t
        · rw [ih (tried ++ [c]) (fun x hx => hstr x (by simp [hx]))]
          simp [allUnresolved, hs, ht]
        · constructor
          · intro h; exact absurd h (by simp)
          · rintro ⟨-, hall, -⟩
            exfalso
            have hthis := List.all_eq_true.1 hall c (by simp)
            rw [hs] at hthis
            dsimp only at hthis
            rw [ht] at hthis
            simp at hthis

lemma includeLoop_unresolved_ok (env : Env) (ig : Bool) :
    ∀ cands tried, (∀ c ∈ cands, (Value.as_str c).isSome = true) →
      allUnresolved env cands = true → ig = true →
      includeLoop env ig cands tried = Except.ok Option.none := by
  intro cands
  induction cands with
  | nil =>
      intro tried _ _ hig
      subst hig
      unfold includeLoop
      simp
  | cons c rest ih =>
      intro tried hstr hall hig
      have hc : (Value.as_str c).isSome = true := hstr c (by simp)
      rcases hs : Value.as_str c with _ | n
      · rw [hs] at hc; simp at hc
      · show (match Value.as_str c with
              | Option.none => Except.error ErrorKind.invalidOperation
              | some n =>
                  match env.get_template n with
                  | some t => Except.ok (some t)
                  | Option.none => includeLoop env ig rest (tried ++ [c])) = _
        rw [hs]
        dsimp only
        have hu := List.all_eq_true.1 hall c (by simp)
        rw [hs] at hu
        dsimp only at hu
        rcases ht : env.get_template n with _ | t
        · dsimp only
          exact ih (tried ++ [c]) (fun x hx => hstr x (by simp [hx]))
            (by simpa [allUnresolved] using fun x hx => List.all_eq_true.1 hall x (by simp [hx])) hig
        · rw [ht] at hu; simp at hu

lemma iterateStep_yield (l : LoopState) : (iterateStep l).2 = l.iterator.head? := by
  unfold iterateStep
  cases l.iterator <;> rfl

/-- Claim C1 counterexample: for the loop over the empty iterator, after the
exit of Iterate the PushDidNotIterate instruction pushes true, yet the loop
index is 0 and not the max-unsigned sentinel, because the exhausting Iterate
already incremented the sentinel.  This refutes the stated equivalence
between pushing true and the index still being the sentinel. -/
theorem C1_sentinel_counterexample :
    pushDidNotIterate (iterSteps 1 (push_loop_fresh [] 0)) = Value.vbool true
    ∧ (iterSteps 1 (push_loop_fresh [] 0)).object.idx = 0
    ∧ (iterSteps 1 (push_loop_fresh [] 0)).object.idx ≠ SENTINEL := by
  refine ⟨rfl, by decide, by decide⟩

/-- Claim C1 as amended: after the Iterate of a loop has exited,
PushDidNotIterate pushes true if and only if the loop index equals 0, which
holds if and only if the iterator yielded no items (the index at that point
equals the number of yielded items, the exhausting Iterate having
incremented the sentinel once). -/
theorem C1_did_not_iterate_amended (xs : List Value) (d : Nat) (hlen : xs.length < USIZE) :
    (iterSteps (xs.length + 1) (push_loop_fresh xs d)).object.idx = xs.length
    ∧ (pushDidNotIterate (iterSteps (xs.length + 1) (push_loop_fresh xs d)) = Value.vbool true
        ↔ xs.length = 0) := by
  have h1 : (iterSteps (xs.length + 1) (push_loop_fresh xs d)).object.idx = xs.length := by
    have := fresh_iterSteps_idx xs d (xs.length + 1) (by omega) (by omega)
    omega
  refine ⟨h1, ?_⟩
  unfold pushDidNotIterate
  rw [h1]
  constructor
  · intro h
    injection h with h2
    simpa using h2
  · intro h
    simp [h]

/-- Claim C1 amended witness at the singleton iterator. -/
theorem C1_did_not_iterate_amended_witness :
    ([Value.vint 3] : List Value).length < USIZE
    ∧ ((iterSteps 2 (push_loop_fresh [Value.vint 3] 0)).object.idx = 1
        ∧ (pushDidNotIterate (iterSteps 2 (push_loop_fresh [Value.vint 3] 0)) = Value.vbool true
            ↔ ([Value.vint 3] : List Value).length = 0)) :=
  ⟨by norm_num [USIZE], C1_did_not_iterate_amended [Value.vint 3] 0 (by norm_num [USIZE])⟩

/-- Claim C2 counterexample: the integer 42 is not a string, is not the
boolean true and is not the boolean false, yet PushAutoEscape derives
AutoEscape::None for it instead of raising InvalidOperation: the source arm
(None, false) accepts every non-string value that does not equal true. -/
theorem C2_derive_counterexample :
    derive_auto_escape true (Value.vint 42) AutoEscape.html = Except.ok AutoEscape.none
    ∧ (Value.vint 42).as_str = Option.none
    ∧ Value.eqTrue (Value.vint 42) = false
    ∧ (Except.ok AutoEscape.none : Except ErrorKind AutoEscape) ≠
        Except.error ErrorKind.invalidOperation := by
  exact ⟨rfl, rfl, rfl, fun h => Except.noConfusion h⟩

/-- Claim C2 as amended: PushAutoEscape derives Html for the string html,
Json for the string json when the feature is on (InvalidOperation when it is
off), None for the string none and for every value that is not a string and
does not equal the boolean true (in particular the boolean false), the
initial mode (or Html when that is None) for the boolean true, and raises
InvalidOperation exactly for the remaining strings. -/
theorem C2_derive_auto_escape_amended (jf : Bool) (init : AutoEscape) (v : Value) (s : String) :
    derive_auto_escape jf (Value.vstr "html") init = Except.ok AutoEscape.html
    ∧ (jf = true → derive_auto_escape jf (Value.vstr "json") init = Except.ok AutoEscape.json)
    ∧ (jf = false →
        derive_auto_escape jf (Value.vstr "json") init = Except.error ErrorKind.invalidOperation)
    ∧ derive_auto_escape jf (Value.vstr "none") init = Except.ok AutoEscape.none
    ∧ derive_auto_escape jf (Value.vbool false) init = Except.ok AutoEscape.none
    ∧ (v.as_str = Option.none → v.eqTrue = false →
        derive_auto_escape jf v init = Except.ok AutoEscape.none)
    ∧ derive_auto_escape jf (Value.vbool true) init =
        Except.ok (if init = AutoEscape.none then AutoEscape.html else init)
    ∧ (s ≠ "html" → s ≠ "json" → s ≠ "none" →
        derive_auto_escape jf (Value.vstr s) init = Except.error ErrorKind.invalidOperation) := by
  refine ⟨rfl, ?_, ?_, rfl, rfl, ?_, rfl, ?_⟩
  · intro h; subst h; rfl
  · intro h; subst h; rfl
  · intro h1 h2
    unfold derive_auto_escape
    rw [h1, h2]
  · intro h1 h2 h3
    unfold derive_auto_escape
    simp only [Value.as_str, Value.eqTrue]
    split
    all_goals simp_all

/-- Claim C2 amended witness at the boolean false with the json feature
enabled. -/
theorem C2_derive_auto_escape_amended_witness :
    (true = true →
      derive_auto_escape true (Value.vstr "json") AutoEscape.html = Except.ok AutoEscape.json)
    ∧ derive_auto_escape true (Value.vbool false) AutoEscape.html = Except.ok AutoEscape.none :=
  ⟨(C2_derive_auto_escape_amended true AutoEscape.html Value.undefined "x").2.1,
   (C2_derive_auto_escape_amended true AutoEscape.html Value.undefined "x").2.2.2.2.1⟩

/-- Claim C3 counterexample: pushing the integer 0 and then the integer 1,
BuildList 2 builds the sequence with the left-most value first; UnpackList 2
then leaves the left-most value 0 on TOP of the stack (the list head in this
embedding), not deepest as claimed, so the round trip reverses the two
values instead of preserving them. -/
theorem C3_unpack_counterexample :
    build_list 2 [Value.vint 1, Value.vint 0] = [Value.vlist [Value.vint 0, Value.vint 1]]
    ∧ unpack_list (Value.vlist [Value.vint 0, Value.vint 1]) [] 2 =
        Except.ok [Value.vint 0, Value.vint 1]
    ∧ ([Value.vint 0, Value.vint 1] : List Value) ≠ [Value.vint 1, Value.vint 0] := by
  refine ⟨rfl, rfl, ?_⟩
  intro h
  injection h with h1 h2
  injection h1 with h3
  exact absurd h3 (by decide)

/-- Claim C3 as amended: UnpackList k pops an iterable yielding exactly k
items and pushes them so that the top k stack entries are in reverse source
order, the left-most item ending on top (so that k successive pops see the
items in source order); consequently BuildList n followed by UnpackList n
reverses the order of the top n stack values; and UnpackList fails with
CannotUnpack when the yielded count differs from k. -/
theorem C3_unpack_list_amended (xs rest : List Value) (count : Nat) :
    (xs.length = count → unpack_list (Value.vlist xs) rest count = Except.ok (xs ++ rest))
    ∧ (xs.length ≠ count →
        unpack_list (Value.vlist xs) rest count = Except.error ErrorKind.cannotUnpack)
    ∧ (∀ st top rest2, count ≤ st.length → build_list count st = top :: rest2 →
        unpack_list top rest2 count = Except.ok (reverse_top count st)) := by
  refine ⟨?_, ?_, ?_⟩
  · intro h
    rw [unpack_list_vlist, if_pos h]
  · intro h
    rw [unpack_list_vlist, if_neg h]
  · intro st top rest2 hle hb
    unfold build_list at hb
    injection hb with h1 h2
    subst h1
    subst h2
    rw [unpack_list_vlist]
    rw [if_pos (by simp [Nat.min_eq_left hle])]
    rfl

/-- Claim C3 amended witness on a two-element stack. -/
theorem C3_unpack_list_amended_witness :
    (([Value.vint 7, Value.vint 8] : List Value).length = 2 →
      unpack_list (Value.vlist [Value.vint 7, Value.vint 8]) [] 2 =
        Except.ok [Value.vint 7, Value.vint 8])
    ∧ (([Value.vint 7] : List Value).length ≠ 2 →
        unpack_list (Value.vlist [Value.vint 7]) [] 2 = Except.error ErrorKind.cannotUnpack) :=
  ⟨(C3_unpack_list_amended [Value.vint 7, Value.vint 8] [] 2).1,
   (C3_unpack_list_amended [Value.vint 7] [] 2).2.1⟩

/-- Claim C4: when the BuildList count operand is absent the count is popped
and converted with an infallible conversion: a popped value on which the
conversion fails makes the VM panic (the crash outcome) rather than return
an InvalidOperation error, and when the conversion succeeds no panic and no
error occurs. -/
theorem C4_build_list_count_crash (top : Value) (rest : List Value) :
    (tryIntoUsize top = Option.none →
      build_list_pop_count top rest = Outcome.crash
      ∧ ∀ e, build_list_pop_count top rest ≠ Outcome.err e)
    ∧ (∀ n, tryIntoUsize top = some n →
        build_list_pop_count top rest = Outcome.ok (build_list n rest)) := by
  constructor
  · intro h
    constructor
    · unfold build_list_pop_count
      rw [h]
    · intro e he
      unfold build_list_pop_count at he
      rw [h] at he
      exact Outcome.noConfusion he
  · intro n h
    unfold build_list_pop_count
    rw [h]

/-- Claim C4 witness: popping a string as the count panics; popping the
integer 2 builds a list of two values. -/
theorem C4_build_list_count_crash_witness :
    tryIntoUsize (Value.vstr "x") = Option.none
    ∧ build_list_pop_count (Value.vstr "x") [] = Outcome.crash
    ∧ tryIntoUsize (Value.vint 2) = some 2
    ∧ build_list_pop_count (Value.vint 2) [Value.vint 4, Value.vint 5] =
        Outcome.ok (build_list 2 [Value.vint 4, Value.vint 5]) :=
  ⟨rfl, ((C4_build_list_count_crash (Value.vstr "x") []).1 rfl).1, by decide,
   (C4_build_list_count_crash (Value.vint 2) [Value.vint 4, Value.vint 5]).2 2 (by decide)⟩

/-- Claim C5: the loop index starts at the max-unsigned sentinel, every
Iterate increments it by one with usize wraparound (so the first iteration
produces index 0), after k successful iterations the index is k - 1 (and
each of those iterations indeed yields an item), and at the else branch
after exhaustion PushDidNotIterate yields true exactly when the loop had
zero iterations. -/
theorem C5_loop_index_invariant (xs : List Value) (d : Nat) (hlen : xs.length < USIZE) :
    (push_loop_fresh xs d).object.idx = SENTINEL
    ∧ (∀ l : LoopState, (iterateStep l).1.object.idx = (l.object.idx + 1) % USIZE)
    ∧ (∀ k, 1 ≤ k → k ≤ xs.length →
        (iterSteps k (push_loop_fresh xs d)).object.idx = k - 1
        ∧ (iterateStep (iterSteps (k - 1) (push_loop_fresh xs d))).2.isSome = true)
    ∧ pushDidNotIterate (iterSteps (xs.length + 1) (push_loop_fresh xs d)) =
        Value.vbool (xs.length == 0) := by
  refine ⟨rfl, iterateStep_idx, ?_, ?_⟩
  · intro k hk1 hk2
    constructor
    · exact fresh_iterSteps_idx xs d k hk1 (by omega)
    · rw [iterateStep_yield, iterSteps_iterator]
      show ((push_loop_fresh xs d).iterator.drop (k - 1)).head?.isSome = true
      rcases hxd : (push_loop_fresh xs d).iterator.drop (k - 1) with _ | ⟨y, ys⟩
      · exfalso
        have : (push_loop_fresh xs d).iterator.length ≤ k - 1 :=
          List.drop_eq_nil_iff.1 hxd
        have hxl : (push_loop_fresh xs d).iterator.length = xs.length := rfl
        omega
      · rfl
  · have h1 : (iterSteps (xs.length + 1) (push_loop_fresh xs d)).object.idx = xs.length := by
      have := fresh_iterSteps_idx xs d (xs.length + 1) (by omega) (by omega)
      omega
    unfold pushDidNotIterate
    rw [h1]

/-- Claim C5 witness on a one-element iterator at k = 1. -/
theorem C5_loop_index_invariant_witness :
    ([Value.vint 5] : List Value).length < USIZE
    ∧ (push_loop_fresh [Value.vint 5] 0).object.idx = SENTINEL
    ∧ pushDidNotIterate (iterSteps 2 (push_loop_fresh [Value.vint 5] 0)) =
        Value.vbool (([Value.vint 5] : List Value).length == 0) :=
  ⟨by norm_num [USIZE],
   (C5_loop_index_invariant [Value.vint 5] 0 (by norm_num [USIZE])).1,
   (C5_loop_index_invariant [Value.vint 5] 0 (by norm_num [USIZE])).2.2.2⟩

/-- Claim C6: when the program counter runs past the end of the current
instructions, a stashed parent-instructions slot makes the dispatch loop
switch the current instructions to the parent, end the pending capture with
AutoEscape::None exactly once, reset the counter to zero and clear both the
filter and the test local caches before continuing; without a stashed
parent the loop exits and returns stack.try_pop(). -/
theorem C6_past_end_dispatch (prog : List Instr) (s : EvalLoopState)
    (h : prog.length ≤ s.pc) :
    (∀ p, s.parent = some p →
      dispatch_step prog s = DispatchResult.cont
        { s with
            instructionsId := p
            parent := Option.none
            endedWith := AutoEscape.none :: s.endedWith
            captureDepth := s.captureDepth - 1
            pc := 0
            loadedFilters := List.replicate MAX_LOCALS Option.none
            loadedTests := List.replicate MAX_LOCALS Option.none })
    ∧ (s.parent = Option.none → dispatch_step prog s = DispatchResult.done s.stack.head?) := by
  have hget : prog.get? s.pc = Option.none := List.get?_eq_none.2 h
  constructor
  · intro p hp
    unfold dispatch_step
    rw [hget, hp]
  · intro hp
    unfold dispatch_step
    rw [hget, hp]

/-- A concrete dispatch state past the end of an empty program with a
stashed parent slot, for the C6 witness. -/
def c6state : EvalLoopState :=
  { instructionsId := 1
    pc := 3
    parent := some 7
    loadedFilters := [some 4]
    loadedTests := []
    captureDepth := 2
    endedWith := []
    output := ""
    stack := [Value.vint 9] }

/-- Claim C6 witness at a concrete state with a stashed parent. -/
theorem C6_past_end_dispatch_witness :
    ([] : List Instr).length ≤ c6state.pc
    ∧ c6state.parent = some 7
    ∧ dispatch_step [] c6state = DispatchResult.cont
        { c6state with
            instructionsId := 7
            parent := Option.none
            endedWith := AutoEscape.none :: c6state.endedWith
            captureDepth := c6state.captureDepth - 1
            pc := 0
            loadedFilters := List.replicate MAX_LOCALS Option.none
            loadedTests := List.replicate MAX_LOCALS Option.none } :=
  ⟨by decide, rfl, (C6_past_end_dispatch [] c6state (by decide)).1 7 rfl⟩

/-- Claim C7 counterexample: including an empty iterable of names with
ignore_missing set to false resolves no template, renders nothing, and
still returns success rather than TemplateNotFound, because the tried list
stays empty; this refutes the claimed equivalence for empty candidate
lists. -/
theorem C7_include_counterexample :
    includeCandidates (Value.vlist []) = []
    ∧ perform_include { templates := [] } (Value.vlist []) false = Except.ok Option.none
    ∧ (Except.ok Option.none : Except ErrorKind (Option Template)) ≠
        Except.error ErrorKind.templateNotFound := by
  exact ⟨rfl, rfl, fun h => Except.noConfusion h⟩

/-- Claim C7 as amended: when the popped value yields at least one candidate
and every candidate is a string, Include raises TemplateNotFound exactly
when ignore_missing is false and no candidate name resolves; and with
ignore_missing set and no candidate resolving it succeeds without rendering
anything (hence writes no output). -/
theorem C7_include_not_found_amended (env : Env) (v : Value) (ig : Bool)
    (hstr : ∀ c ∈ includeCandidates v, (Value.as_str c).isSome = true)
    (hne : includeCandidates v ≠ []) :
    (perform_include env v ig = Except.error ErrorKind.templateNotFound ↔
      ig = false ∧ allUnresolved env (includeCandidates v) = true)
    ∧ (ig = true → allUnresolved env (includeCandidates v) = true →
        perform_include env v ig = Except.ok Option.none) := by
  constructor
  · unfold perform_include
    rw [includeLoop_tnf_iff env ig (includeCandidates v) [] hstr]
    simp [hne]
  · intro h1 h2
    unfold perform_include
    exact includeLoop_unresolved_ok env ig (includeCandidates v) [] hstr h2 h1

/-- Claim C7 amended witness: including the single absent name in an empty
environment errors with TemplateNotFound when ignore_missing is false and
succeeds silently when it is true. -/
theorem C7_include_not_found_amended_witness :
    perform_include { templates := [] } (Value.vstr "absent") false =
      Except.error ErrorKind.templateNotFound
    ∧ perform_include { templates := [] } (Value.vstr "absent") true = Except.ok Option.none := by
  have hstr : ∀ c ∈ includeCandidates (Value.vstr "absent"),
      (Value.as_str c).isSome = true := by
    simp [includeCandidates, Value.try_iter, Value.as_str]
  have hne : includeCandidates (Value.vstr "absent") ≠ [] := by
    simp [includeCandidates, Value.try_iter]
  refine ⟨?_, ?_⟩
  · exact (C7_include_not_found_amended { templates := [] } (Value.vstr "absent") false
      hstr hne).1.2 ⟨rfl, rfl⟩
  · exact (C7_include_not_found_amended { templates := [] } (Value.vstr "absent") true
      hstr hne).2 rfl rfl

/-- Claim C8: LoadBlocks raises InvalidOperation when the resolved parent
name is already on the extends chain recorded in loaded_templates, and
otherwise records the parent name there (the environment resolves each name
to a template carrying that name). -/
theorem C8_load_blocks_cycle (env : Env) (name : String) (t : Template) (st : LBState)
    (hres : env.get_template name = some t) (hwf : t.name = name) :
    (name ∈ st.loadedTemplates →
      load_blocks env (Value.vstr name) st = Except.error ErrorKind.invalidOperation)
    ∧ (name ∉ st.loadedTemplates →
        load_blocks env (Value.vstr name) st =
          Except.ok (t.instructionsId,
            { loadedTemplates := name :: st.loadedTemplates
              blocks := merge_blocks st.blocks t.blocks })
        ∧ ∀ st2 instrs, load_blocks env (Value.vstr name) st = Except.ok (instrs, st2) →
            name ∈ st2.loadedTemplates) := by
  constructor
  · intro hmem
    unfold load_blocks
    simp only [Value.as_str]
    rw [if_pos hmem]
  · intro hmem
    have hok : load_blocks env (Value.vstr name) st =
        Except.ok (t.instructionsId,
          { loadedTemplates := name :: st.loadedTemplates
            blocks := merge_blocks st.blocks t.blocks }) := by
      unfold load_blocks
      simp only [Value.as_str]
      rw [if_neg hmem, hres]
      dsimp only
      rw [hwf]
    refine ⟨hok, ?_⟩
    intro st2 instrs h2
    rw [hok] at h2
    injection h2 with h3
    injection h3 with h4 h5
    rw [← h5]
    simp

/-- A concrete parent template and environment for the C8 witness. -/
def c8tmpl : Template :=
  { name := "base"
    initialAutoEscape := AutoEscape.html
    instructionsId := 3
    blocks := [("body", 9)] }

/-- Environment holding only the parent template base. -/
def c8env : Env := { templates := [("base", c8tmpl)] }

/-- Claim C8 witness: extending base twice errors, extending it fresh
records it. -/
theorem C8_load_blocks_cycle_witness :
    c8env.get_template "base" = some c8tmpl
    ∧ load_blocks c8env (Value.vstr "base")
        { loadedTemplates := ["base"], blocks := [] } =
        Except.error ErrorKind.invalidOperation
    ∧ load_blocks c8env (Value.vstr "base") { loadedTemplates := [], blocks := [] } =
        Except.ok (c8tmpl.instructionsId,
          { loadedTemplates := ["base"], blocks := merge_blocks [] c8tmpl.blocks }) :=
  ⟨by decide,
   (C8_load_blocks_cycle c8env "base" c8tmpl { loadedTemplates := ["base"], blocks := [] }
      (by decide) rfl).1 (by decide),
   ((C8_load_blocks_cycle c8env "base" c8tmpl { loadedTemplates := [], blocks := [] }
      (by decide) rfl).2 (by decide)).1⟩

/-- Claim C9: for an Include that resolved a template and whose nested
evaluation ran (the depth inflation was accepted by the recursion limit),
the auto-escape mode, current instructions, block table, loaded-templates
set, active closure and context depth are all restored to their prior
values whether the nested evaluation succeeds or fails, provided the nested
evaluation itself is depth balanced (the frame-balance invariant of the
dispatch loop). -/
theorem C9_include_restores_state (limit : Nat)
    (evalf : VmState → Except ErrorKind Unit × VmState) (tmpl : Template) (st : VmState)
    (hdepth : st.depth + INCLUDE_RECURSION_COST ≤ limit)
    (hbal : ∀ s, ((evalf s).2).depth = s.depth) :
    (include_render limit evalf tmpl st).2 = st := by
  unfold include_render
  dsimp only
  rw [if_neg (by omega)]
  dsimp only
  ext
  · rfl
  · rfl
  · rfl
  · rfl
  · rfl
  · show ((evalf _).2).depth - INCLUDE_RECURSION_COST = st.depth
    rw [hbal]
    dsimp only
    omega

/-- Nested evaluation used by the C9 witness: it fails with an error and
clobbers several state fields while preserving the depth. -/
def c9evalf (s : VmState) : Except ErrorKind Unit × VmState :=
  (Except.error ErrorKind.invalidOperation,
   { s with loadedTemplates := ["zzz"], autoEscape := AutoEscape.html, instructionsId := 99 })

/-- Parent template rendered by the include of the C9 witness. -/
def c9tmpl : Template :=
  { name := "partial"
    initialAutoEscape := AutoEscape.json
    instructionsId := 11
    blocks := [("side", 4)] }

/-- Initial state for the C9 witness. -/
def c9state : VmState :=
  { autoEscape := AutoEscape.none
    instructionsId := 5
    blocks := [("body", 2)]
    loadedTemplates := ["child"]
    closure := some 4
    depth := 6
    }

/-- Claim C9 witness: even though the nested evaluation fails and mutates
the state, the state after the include equals the state before it. -/
theorem C9_include_restores_state_witness :
    c9state.depth + INCLUDE_RECURSION_COST ≤ 100
    ∧ (∀ s, ((c9evalf s).2).depth = s.depth)
    ∧ (include_render 100 c9evalf c9tmpl c9state).2 = c9state :=
  ⟨by decide, fun s => rfl,
   C9_include_restores_state 100 c9evalf c9tmpl c9state (by decide) (fun s => rfl)⟩

/-- Claim C10: with the cache arrays of ApplyFilter and PerformTest sized
MAX_LOCALS, an uncached local id in the range 50 to 254 whose filter or
test resolves by name makes the memoizing write go out of bounds and panic
(the crash outcome) instead of returning an error, while a local id below
50 or equal to 255 can never reach the panic. -/
theorem C10_local_cache_bounds (vec : List (Option Nat)) (local_id : Nat) (f : Option Nat)
    (hlen : vec.length = MAX_LOCALS) :
    (50 ≤ local_id → local_id ≤ 254 → f.isSome = true →
      get_or_lookup_local vec local_id f = CacheResult.crash)
    ∧ (local_id < 50 ∨ local_id = 255 →
        get_or_lookup_local vec local_id f ≠ CacheResult.crash) := by
  have hml : MAX_LOCALS = 50 := rfl
  constructor
  · intro h1 h2 hf
    rcases hfv : f with _ | v
    · rw [hfv] at hf
      simp at hf
    · subst hfv
      unfold get_or_lookup_local
      rw [if_neg (by omega)]
      have hget : vec.get? local_id = Option.none := List.get?_eq_none.2 (by omega)
      rw [hget]
      dsimp only
      rw [if_neg (by omega)]
  · intro h
    rcases h with h | h
    · unfold get_or_lookup_local
      rw [if_neg (by omega)]
      rcases hget : vec.get? local_id with _ | slot
      · exfalso
        have := List.get?_eq_none.1 hget
        omega
      · rcases slot with _ | rv
        · dsimp only
          rcases f with _ | v
          · intro hc
            exact CacheResult.noConfusion hc
          · dsimp only
            rw [if_pos (show local_id < vec.length by omega)]
            intro hc
            exact CacheResult.noConfusion hc
        · dsimp only
          intro hc
          exact CacheResult.noConfusion hc
    · subst h
      unfold get_or_lookup_local
      rw [if_pos rfl]
      rcases f with _ | v
      · intro hc
        exact CacheResult.noConfusion hc
      · intro hc
        exact CacheResult.noConfusion hc

/-- Claim C10 witness: with the fresh cache of 50 empty slots, local id 60
with a resolving lookup panics, local id 3 does not. -/
theorem C10_local_cache_bounds_witness :
    (List.replicate 50 (Option.none : Option Nat)).length = MAX_LOCALS
    ∧ get_or_lookup_local (List.replicate 50 Option.none) 60 (some 7) = CacheResult.crash
    ∧ get_or_lookup_local (List.replicate 50 Option.none) 3 (some 7) ≠ CacheResult.crash :=
  ⟨by simp [MAX_LOCALS],
   (C10_local_cache_bounds (List.replicate 50 Option.none) 60 (some 7)
      (by simp [MAX_LOCALS])).1 (by omega) (by omega) rfl,
   (C10_local_cache_bounds (List.replicate 50 Option.none) 3 (some 7)
      (by simp [MAX_LOCALS])).2 (Or.inl (by omega))⟩

end Minijinja
